import Mathlib

set_option maxHeartbeats 1000000

namespace PDF2TIFF

/-- Spatial reference descriptor as read by the source: `factoryCode` is the
stable numeric code (`0` models Python-falsy "no code"), `name` the reference
name (src/PDF2TIFF.py lines 150-157 read exactly these two attributes). -/
structure SRef where
  factoryCode : Nat
  name : String
deriving DecidableEq

/-- Tool._sr_equal (src/PDF2TIFF.py lines 150-157): compare factory codes when
both are truthy (nonzero), else compare names.  The `except: return False`
branch guards attribute access, which is total in this model. -/
def sr_equal (a b : SRef) : Bool :=
  if a.factoryCode != 0 && b.factoryCode != 0 then a.factoryCode == b.factoryCode
  else a.name == b.name

/-- Prefix test on character lists, building block of substring containment. -/
def isPrefList : List Char → List Char → Bool
  | [], _ => true
  | _ :: _, [] => false
  | x :: xs, y :: ys => x == y && isPrefList xs ys

/-- Substring containment on character lists, Python `key in c`. -/
def hasSub (key : List Char) : List Char → Bool
  | [] => isPrefList key []
  | y :: ys => isPrefList key (y :: ys) || hasSub key ys

/-- Python `key in c` on strings. -/
def containsSub (key c : String) : Bool :=
  hasSub key.data c.data

/-- Priority token tuple of Tool._pick_transform (src/PDF2TIFF.py line 165). -/
def priorityKeys : List String :=
  ["NAD_1983", "HARN", "NSRS2007", "2011", "ETRS", "NAVD"]

/-- Nested loop of Tool._pick_transform (src/PDF2TIFF.py lines 165-169): the
first key, in key order, that occurs in some candidate wins, and the winner is
the first such candidate in query order; with no hit, the first candidate. -/
def pickFromCands : List String → List String → String
  | [], cands => cands.headD ""
  | k :: ks, cands =>
    match cands.find? (fun c => containsSub k c) with
    | some c => c
    | none => pickFromCands ks cands

/-- Tool._pick_transform (src/PDF2TIFF.py lines 159-171).  The argument is the
`arcpy.ListTransformations` outcome: `none` models the query raising, which
the `except` turns into `""`; an empty candidate list also yields `""`
(`if not cands`). -/
def pick_transform (q : Option (List String)) : String :=
  match q with
  | none => ""
  | some cands => if cands.isEmpty then "" else pickFromCands priorityKeys cands

/-- Modelled from the spec (§4.4): the selection rule as the spec words it —
no candidates gives the empty transform; otherwise the first candidate, in
query order, containing the first priority token present in any candidate,
else the first candidate. -/
def pickTransformSpec (q : Option (List String)) : String :=
  match q with
  | none => ""
  | some [] => ""
  | some (c :: cs) =>
    ((priorityKeys.findSome? (fun k => (c :: cs).find? (fun cand => containsSub k cand))).getD c)

/-- Python `\s` whitespace characters (ASCII range, the inputs used here). -/
def isWsChar (c : Char) : Bool :=
  c == ' ' || c == '\t' || c == '\n' || c == '\r' || c == Char.ofNat 11 || c == Char.ofNat 12

/-- Character class of the regex in Tool._sanitize_for_fs
(src/PDF2TIFF.py line 148): the reserved filename characters plus whitespace. -/
def sanChar (c : Char) : Bool :=
  c == '<' || c == '>' || c == ':' || c == '\"' || c == '/' || c == '\\' ||
    c == '|' || c == '?' || c == '*' || isWsChar c

/-- Python str.strip: drop whitespace from both ends. -/
def pyStrip (l : List Char) : List Char :=
  ((l.dropWhile isWsChar).reverse.dropWhile isWsChar).reverse

/-- One pass of `re.sub` with pattern "[class]+" and replacement `_`: every
maximal run of class characters becomes a single underscore.  The flag records
whether a run is currently open. -/
def collapseAux (cls : Char → Bool) : Bool → List Char → List Char
  | _, [] => []
  | inRun, c :: rest =>
    if cls c then (if inRun then [] else ['_']) ++ collapseAux cls true rest
    else c :: collapseAux cls false rest

/-- Tool._sanitize_for_fs (src/PDF2TIFF.py lines 146-148) at the default
maxlen of 120: strip, collapse reserved-or-whitespace runs to `_`, truncate. -/
def sanitize_for_fs (s : String) : String :=
  String.mk ((collapseAux sanChar false (pyStrip s.data)).take 120)

/-- Modelled from the spec (§6): the sanitization as the spec words it — every
run of non-alphanumeric or whitespace characters collapses to a single
separator, and the result is truncated to the bounded length. -/
def sanitizeSpec (s : String) : String :=
  String.mk ((collapseAux (fun c => !c.isAlphanum) false (pyStrip s.data)).take 120)

/-- Python str.zfill for the nonnegative digit strings used here
(src/PDF2TIFF.py line 272, `str(page_1b).zfill(2)`). -/
def zfill (width : Nat) (s : String) : String :=
  if s.length < width then String.mk (List.replicate (width - s.length) '0') ++ s else s

/-- os.path.join for the two-argument uses in the source, posix separator. -/
def joinPath (a b : String) : String :=
  if a == "" then b else a ++ "/" ++ b

/-- Output file name built in the export loop (src/PDF2TIFF.py lines 272-274). -/
def output_filename (project_id county : String) (page_1b : Int) : String :=
  project_id ++ "_p" ++ zfill 2 (toString page_1b) ++ "_" ++ county ++ "_County_Project.tif"

/-- Output path of one page (src/PDF2TIFF.py line 275). -/
def output_path (folder project_id county : String) (page_1b : Int) : String :=
  joinPath folder (output_filename project_id county page_1b)

/-- os.path.basename for the separator-normalized paths used here. -/
def basenameOf (p : String) : String :=
  (p.splitOn "/").getLastD ""

/-- os.path.dirname for the separator-normalized paths used here. -/
def dirnameOf (p : String) : String :=
  String.intercalate "/" (p.splitOn "/").dropLast

/-- os.path.splitext restricted to the plain `name.ext` shapes used here. -/
def splitextOf (b : String) : String × String :=
  let ps := b.splitOn "."
  if ps.length ≤ 1 then (b, "") else
    (String.intercalate "." ps.dropLast, "." ++ ps.getLastD "")

/-- Temporary path built by project_raster_in_place (src/PDF2TIFF.py lines
244-246); `hex` stands for the `uuid.uuid4().hex` draw. -/
def tmpPath (in_path hex : String) : String :=
  joinPath (dirnameOf in_path)
    ((splitextOf (basenameOf in_path)).1 ++ ".__tmp_" ++ hex ++ ".tif")

/-- Outcome oracle for one project_raster_in_place call.  `describe` is
`Except.error` when `arcpy.Describe` raises, `Except.ok none` when the
described object carries no spatialReference, else the reference.  `cands` is
the `arcpy.ListTransformations` outcome as in `pick_transform`.  The flags say
whether `ProjectRaster`, the `Delete` of the original, and `os.replace`
raise. -/
structure RecEnv where
  describe : Except Unit (Option SRef)
  cands : Option (List String)
  uuidHex : String
  projectFails : Bool
  deleteFails : Bool
  replaceFails : Bool

/-- Filesystem-visible effects of one project_raster_in_place call.
`projected` holds the temporary path once ProjectRaster has written it,
`deletedOrig` says the Delete call removed the original, `replaced` says
os.replace installed the temporary file at the original path, `warnKept` says
the catch-all warning fired and the original was kept as final artifact.
`renamedAside` would record an original-renamed-aside operation: the source
performs none, so no branch sets it. -/
structure RecTrace where
  describeWarn : Bool := false
  projected : Option String := none
  deletedOrig : Bool := false
  renamedAside : Bool := false
  replaced : Bool := false
  warnKept : Bool := false
deriving DecidableEq

/-- Trace of the branches that touch no file. -/
def nilTrace : RecTrace := {}

/-- project_raster_in_place (src/PDF2TIFF.py lines 223-266).  Describe failure
warns and returns the input unchanged; an absent or Unknown reference and a
reference equal to the target are no-ops; otherwise ProjectRaster writes a
temporary file, the original is deleted with any failure silently ignored
(`except: pass`), and os.replace moves the temporary file onto the original
path; if ProjectRaster or os.replace raises, the except logs a warning and the
original is kept.  The function returns `in_path` on every branch. -/
def project_raster_in_place (renv : RecEnv) (in_path : String) (out_sr : SRef) :
    String × RecTrace :=
  match renv.describe with
  | Except.error _ => (in_path, { describeWarn := true })
  | Except.ok none => (in_path, nilTrace)
  | Except.ok (some in_sr) =>
    if in_sr.name = "Unknown" then (in_path, nilTrace)
    else if sr_equal in_sr out_sr then (in_path, nilTrace)
    else
      let tmp_path := tmpPath in_path renv.uuidHex
      let _gtrans := pick_transform renv.cands
      if renv.projectFails then (in_path, { warnKept := true })
      else if renv.replaceFails then
        (in_path, { projected := some tmp_path, deletedOrig := !renv.deleteFails,
                    warnKept := true })
      else
        (in_path, { projected := some tmp_path, deletedOrig := !renv.deleteFails,
                    replaced := true })

/-- Failure record appended on an export failure (src/PDF2TIFF.py lines
297-302): source pdf path, 1-based page, resolved output path, error text. -/
structure FailureRecord where
  pdf_path : String
  page : Int
  output : String
  error : String
deriving DecidableEq

/-- Inputs and outcome oracles of one Tool.execute run.  `startVal`/`endVal`
are the 1-based page bounds the user typed (the source subtracts 1 and adds it
back before checking).  `pdfOpenFails` models `PDFDocumentOpen` raising in the
preflight.  `convert` gives, per 1-based page, `some errText` when
`arcpy.conversion.PDFToTIFF` raises and `none` on success.  `recon` gives the
reconciliation oracle per page.  `preExists` says a stale file sits at the
output path (its Delete only warns on failure, so no failure flag is needed).
`mapPresent` models `map_obj` being non-None; a failing `addDataFromPath` only
warns and is not modelled as state.  `tableExists` and `tableWriteFails` drive
the failure-table block (src/PDF2TIFF.py lines 320-362). -/
structure ExecEnv where
  input_pdf_path : String
  output_folder : String
  startVal : Int
  endVal : Int
  project_id : String
  county : String
  folderIsDir : Bool
  mapPresent : Bool
  target_sr : SRef
  pdfOpenFails : Bool
  pageCount : Int
  convert : Int → Option String
  recon : Int → RecEnv
  preExists : Int → Bool
  tableExists : Bool
  tableWriteFails : Bool

/-- Mutable state accumulated by the export loop. -/
structure LoopAcc where
  preDeleted : List Int := []
  convertCalls : List Int := []
  artifacts : List String := []
  failures : List FailureRecord := []
  registered : List String := []
deriving DecidableEq

/-- One iteration of the export loop (src/PDF2TIFF.py lines 270-318): resolve
the output path, clear a stale file, attempt the export — on failure append a
FailureRecord and continue — then reproject in place and register the final
path with the map when one is present. -/
def doPage (env : ExecEnv) (acc : LoopAcc) (p : Int) : LoopAcc :=
  let path := output_path env.output_folder env.project_id env.county p
  let acc1 : LoopAcc :=
    { acc with
      preDeleted := acc.preDeleted ++ (if env.preExists p then [p] else []),
      convertCalls := acc.convertCalls ++ [p] }
  match env.convert p with
  | some err =>
    { acc1 with failures := acc1.failures ++ [⟨env.input_pdf_path, p, path, err⟩] }
  | none =>
    let final_path := (project_raster_in_place (env.recon p) path env.target_sr).1
    { acc1 with
      artifacts := acc1.artifacts ++ [path],
      registered := acc1.registered ++ (if env.mapPresent then [final_path] else []) }

/-- Python `range(a-1, b)` mapped back to 1-based pages: the list a, a+1, ...,
b, empty when b < a. -/
def intRange (a b : Int) : List Int :=
  (List.range (b + 1 - a).toNat).map (fun i => a + i)

/-- Pages the export loop visits. -/
def pagesOf (env : ExecEnv) : List Int :=
  intRange env.startVal env.endVal

/-- Output path of a page under the run's naming inputs. -/
def pathOf (env : ExecEnv) (p : Int) : String :=
  output_path env.output_folder env.project_id env.county p

/-- FailureRecord a page contributes, when its export fails. -/
def failOf (env : ExecEnv) (p : Int) : Option FailureRecord :=
  (env.convert p).map (fun err => ⟨env.input_pdf_path, p, pathOf env p, err⟩)

/-- Externally visible outcome of one Tool.execute run.  `fatalError` is the
`ExecuteError` raise, with every other field showing what happened before it.
`registered` lists the paths handed to `addDataFromPath`.  `reportTable` is
the failures-table name when the table block wrote one, `reportOverwrote`
whether it deleted a pre-existing table of that name, `summarySkipped` and
`summaryNoSkip` which closing summary message was emitted. -/
structure RunResult where
  fatalError : Option String
  mkdirRan : Bool
  preDeleted : List Int
  convertCalls : List Int
  artifacts : List String
  failures : List FailureRecord
  registered : List String
  reportTable : Option String
  reportOverwrote : Bool
  summarySkipped : Bool
  summaryNoSkip : Bool
deriving DecidableEq

/-- Tool.execute (src/PDF2TIFF.py lines 174-367).  In source order: ensure the
output folder exists (os.makedirs when absent); preflight-open the PDF for its
page count, raising ExecuteError on failure; raise ExecuteError when the
requested 1-based range has start < 1 or end > pageCount; run the export loop;
then, when failures were collected, write the failures table named from the
sanitized project id — overwriting an existing one — and emit the skipped
summary (the table block failing still emits the skipped summary), else emit
the no-pages-skipped message.  The folder-coercion glue on lines 185-190 and
the gdb-path fallback on lines 323-326 are UI/path glue outside every claim
and are not modelled. -/
def execute (env : ExecEnv) : RunResult :=
  let mkdirRan := !env.folderIsDir
  if env.pdfOpenFails then
    { fatalError := some "Could not read page count", mkdirRan := mkdirRan,
      preDeleted := [], convertCalls := [], artifacts := [], failures := [],
      registered := [], reportTable := none, reportOverwrote := false,
      summarySkipped := false, summaryNoSkip := false }
  else if env.startVal < 1 ∨ env.endVal > env.pageCount then
    { fatalError := some "Requested page range exceeds pageCount", mkdirRan := mkdirRan,
      preDeleted := [], convertCalls := [], artifacts := [], failures := [],
      registered := [], reportTable := none, reportOverwrote := false,
      summarySkipped := false, summaryNoSkip := false }
  else
    let acc := (intRange env.startVal env.endVal).foldl (doPage env) {}
    { fatalError := none, mkdirRan := mkdirRan,
      preDeleted := acc.preDeleted, convertCalls := acc.convertCalls,
      artifacts := acc.artifacts, failures := acc.failures,
      registered := acc.registered,
      reportTable :=
        if acc.failures.isEmpty then none
        else if env.tableWriteFails then none
        else some ("PDF2TIFF_Failures_" ++ sanitize_for_fs env.project_id),
      reportOverwrote :=
        if acc.failures.isEmpty then false
        else if env.tableWriteFails then false
        else env.tableExists,
      summarySkipped := !acc.failures.isEmpty,
      summaryNoSkip := acc.failures.isEmpty }

/-- Geographic WGS84 reference, the source's `arcpy.SpatialReference(4326)`. -/
def srWGS : SRef := ⟨4326, "GCS_WGS_1984"⟩

/-- Projected reference distinct from `srWGS` by factory code. -/
def srUTM : SRef := ⟨26915, "NAD_1983_UTM_Zone_15N"⟩

/-- Reconciliation oracle for an artifact without a spatialReference. -/
def recNoop : RecEnv :=
  { describe := Except.ok none, cands := none, uuidHex := "0f0f",
    projectFails := false, deleteFails := false, replaceFails := false }

/-- Reconciliation oracle whose described reference is the Unknown sentinel. -/
def renvUnknown : RecEnv :=
  { describe := Except.ok (some ⟨0, "Unknown"⟩), cands := none, uuidHex := "0b0b",
    projectFails := false, deleteFails := false, replaceFails := false }

/-- Reconciliation oracle whose described reference equals the target. -/
def renvSame : RecEnv :=
  { describe := Except.ok (some srWGS), cands := none, uuidHex := "0c0c",
    projectFails := false, deleteFails := false, replaceFails := false }

/-- Reconciliation oracle where the Delete of the original raises but
os.replace succeeds. -/
def renvC3 : RecEnv :=
  { describe := Except.ok (some srUTM), cands := some ["NAD_1983_To_WGS_1984_1"],
    uuidHex := "abc123", projectFails := false, deleteFails := true,
    replaceFails := false }

/-- Reconciliation oracle where ProjectRaster itself raises. -/
def renvProjFail : RecEnv :=
  { describe := Except.ok (some srUTM), cands := none, uuidHex := "aa11",
    projectFails := true, deleteFails := false, replaceFails := false }

/-- Run inputs all claims' concrete instances start from: a five-page source,
page range 1..1, benign oracles. -/
def baseEnv : ExecEnv :=
  { input_pdf_path := "in.pdf", output_folder := "out",
    startVal := 1, endVal := 1, project_id := "P1", county := "Smith",
    folderIsDir := true, mapPresent := true, target_sr := srWGS,
    pdfOpenFails := false, pageCount := 5,
    convert := fun _ => none, recon := fun _ => recNoop,
    preExists := fun _ => false, tableExists := false, tableWriteFails := false }

/-- Range 1..5 where only page 3's export raises. -/
def envC1 : ExecEnv :=
  { baseEnv with
    endVal := 5
    convert := fun p => if p = 3 then some "ERROR 000725: export failed" else none }

/-- Requested range 3..2 inside a five-page document. -/
def envC2 : ExecEnv := { baseEnv with startVal := 3, endVal := 2 }

/-- Requested range starting at 0, below the first page. -/
def envC2w : ExecEnv := { baseEnv with startVal := 0, endVal := 3 }

/-- Run whose reconciliation oracle fails on every page. -/
def envC4 : ExecEnv := { baseEnv with endVal := 2, recon := fun _ => renvProjFail }

/-- Requested range 2..1 inside a five-page document. -/
def envC8 : ExecEnv := { baseEnv with startVal := 2, endVal := 1 }

/-- Requested range 1..9 inside a five-page document. -/
def envC8w : ExecEnv := { baseEnv with startVal := 1, endVal := 9 }

/-- Run where every export fails, with a project id needing sanitization and a
pre-existing failures table. -/
def envC9 : ExecEnv :=
  { baseEnv with
    convert := fun _ => some "ERROR 000729"
    project_id := "My Project: 2024"
    tableExists := true }

/-- Requested range 4..2, both endpoints inside a five-page document. -/
def envC10 : ExecEnv := { baseEnv with startVal := 4, endVal := 2 }

/-- Helper: project_raster_in_place returns its input path on every branch
(src/PDF2TIFF.py line 266 is `return in_path` after all paths). -/
theorem prp_fst (renv : RecEnv) (p : String) (sr : SRef) :
    (project_raster_in_place renv p sr).1 = p := by
  cases hd : renv.describe with
  | error e => simp [project_raster_in_place, hd]
  | ok o =>
    cases o with
    | none => simp [project_raster_in_place, hd]
    | some s =>
      simp only [project_raster_in_place, hd]
      split
      · rfl
      · split
        · rfl
        · split
          · rfl
          · split <;> rfl

/-- Helper: closed form of the export loop — every page is visited, exports
are attempted on all of them, and each page contributes independently of the
others and of the reconciliation oracle. -/
theorem foldl_doPage (env : ExecEnv) (ps : List Int) (acc : LoopAcc) :
    ps.foldl (doPage env) acc =
      { preDeleted := acc.preDeleted ++ ps.filter env.preExists,
        convertCalls := acc.convertCalls ++ ps,
        artifacts := acc.artifacts ++
          (ps.filter (fun p => (env.convert p).isNone)).map (pathOf env),
        failures := acc.failures ++ ps.filterMap (failOf env),
        registered := acc.registered ++
          (if env.mapPresent then
            (ps.filter (fun p => (env.convert p).isNone)).map (pathOf env)
          else []) } := by
  induction ps generalizing acc with
  | nil => simp
  | cons p t ih =>
    rw [List.foldl_cons, ih]
    cases hc : env.convert p with
    | none =>
      simp [doPage, hc, pathOf, failOf, prp_fst, List.filter_cons, List.filterMap_cons]
      cases hm : env.mapPresent <;>
        cases hp : env.preExists p <;> simp [hp]
    | some err =>
      simp [doPage, hc, pathOf, failOf, List.filter_cons, List.filterMap_cons]
      cases hp : env.preExists p <;> simp [hp]

/-- Helper: closed form of a run that passes the preflight and range check. -/
theorem execute_ok_eq (env : ExecEnv) (h1 : env.pdfOpenFails = false)
    (h2 : ¬(env.startVal < 1 ∨ env.endVal > env.pageCount)) :
    execute env =
      { fatalError := none, mkdirRan := !env.folderIsDir,
        preDeleted := (pagesOf env).filter env.preExists,
        convertCalls := pagesOf env,
        artifacts := ((pagesOf env).filter (fun p => (env.convert p).isNone)).map (pathOf env),
        failures := (pagesOf env).filterMap (failOf env),
        registered :=
          if env.mapPresent then
            ((pagesOf env).filter (fun p => (env.convert p).isNone)).map (pathOf env)
          else [],
        reportTable :=
          if ((pagesOf env).filterMap (failOf env)).isEmpty then none
          else if env.tableWriteFails then none
          else some ("PDF2TIFF_Failures_" ++ sanitize_for_fs env.project_id),
        reportOverwrote :=
          if ((pagesOf env).filterMap (failOf env)).isEmpty then false
          else if env.tableWriteFails then false
          else env.tableExists,
        summarySkipped := !((pagesOf env).filterMap (failOf env)).isEmpty,
        summaryNoSkip := ((pagesOf env).filterMap (failOf env)).isEmpty } := by
  simp only [execute, h1, Bool.false_eq_true, if_false, if_neg h2]
  rw [foldl_doPage]
  simp [pagesOf]

/-- Helper: the nested key/candidate loop picks the first candidate containing
the first key found anywhere, else the first candidate. -/
theorem pickFromCands_eq (keys cands : List String) :
    pickFromCands keys cands =
      (keys.findSome? (fun k => cands.find? (fun c => containsSub k c))).getD
        (cands.headD "") := by
  induction keys with
  | nil => rfl
  | cons k ks ih =>
    rw [pickFromCands, List.findSome?_cons]
    cases h : cands.find? (fun c => containsSub k c) with
    | some c => simp
    | none => simp [ih]

/-- Helper: on a nonempty candidate list the pick is one of the candidates. -/
theorem pickFromCands_mem (keys : List String) (c : String) (cs : List String) :
    pickFromCands keys (c :: cs) ∈ c :: cs := by
  induction keys with
  | nil => simp [pickFromCands]
  | cons k ks ih =>
    rw [pickFromCands]
    cases h : (c :: cs).find? (fun x => containsSub k x) with
    | some x => exact List.mem_of_find?_eq_some h
    | none => exact ih

/-- Helper: every character the run-collapse emits is outside the class,
provided the separator itself is. -/
theorem collapseAux_classFree (cls : Char → Bool) (h0 : cls '_' = false) :
    ∀ (b : Bool) (l : List Char) (c : Char), c ∈ collapseAux cls b l → cls c = false := by
  intro b l
  induction l generalizing b with
  | nil => intro c hc; simp [collapseAux] at hc
  | cons a t ih =>
    intro c hc
    simp only [collapseAux] at hc
    by_cases ha : cls a = true
    · rw [if_pos ha] at hc
      rcases List.mem_append.mp hc with h | h
      · cases b
        · simp at h; subst h; exact h0
        · simp at h
      · exact ih true c h
    · rw [if_neg ha] at hc
      rcases List.mem_cons.mp hc with rfl | h
      · exact Bool.not_eq_true _ |>.mp ha
      · exact ih false c h

/-- Helper: an inverted interval yields no loop iterations. -/
theorem intRange_of_lt (a b : Int) (h : b < a) : intRange a b = [] := by
  unfold intRange
  rw [Int.toNat_of_nonpos (by omega)]
  rfl

/-- C6: transform selection is deterministic and total — a failing or empty
query yields the empty transform, and otherwise the code's nested-loop pick
equals the spec's rule (first candidate containing the first priority token
present in any candidate, else the first candidate in query order) and always
returns one of the candidates. -/
theorem claim_C6_pick_transform_deterministic_total :
    pick_transform none = "" ∧
    pick_transform (some []) = "" ∧
    (∀ q, pick_transform q = pickTransformSpec q) ∧
    (∀ c cs, pick_transform (some (c :: cs)) ∈ c :: cs) := by
  refine ⟨rfl, rfl, fun q => ?_, fun c cs => ?_⟩
  · match q with
    | none => rfl
    | some [] => rfl
    | some (c :: cs) =>
      simp only [pick_transform, pickTransformSpec, List.isEmpty_cons, pickFromCands_eq]
      simp [List.headD]
  · simpa [pick_transform] using pickFromCands_mem priorityKeys c cs

/-- C7: output path resolution is pure, deterministic and follows the fixed
naming pattern with two-digit left padding and no truncation — the page
renders zero-padded to width two, pages of three or more digits keep their
natural width, and the two cited instances evaluate as claimed. -/
theorem claim_C7_output_path_pattern :
    (∀ folder project_id county p,
      output_path folder project_id county p = output_path folder project_id county p) ∧
    output_filename "P1" "Smith" 7 = "P1_p07_Smith_County_Project.tif" ∧
    output_filename "P1" "Smith" 123 = "P1_p123_Smith_County_Project.tif" ∧
    (∀ w s, zfill w s = String.mk (List.replicate (w - s.length) '0' ++ s.data)) := by
  refine ⟨fun _ _ _ _ => rfl, by decide, by decide, fun w s => ?_⟩
  unfold zfill
  split
  · cases s
    rfl
  · rename_i h
    rw [Nat.sub_eq_zero_of_le (Nat.le_of_not_lt h)]
    cases s
    rfl

/-- C5: reconciliation is a no-op — artifact returned unchanged, no temporary
file created and no reprojection invoked (the empty trace) — when the
artifact's reference is absent, when it is the Unknown sentinel, and when it
equals the target under the code's equality rule; and that rule holds exactly
when both descriptors carry a nonzero factory code and the codes match,
falling back to name equality otherwise. -/
theorem claim_C5_reconciliation_noop :
    (∀ renv path sr, renv.describe = Except.ok none →
      project_raster_in_place renv path sr = (path, nilTrace)) ∧
    (∀ renv path sr isr, renv.describe = Except.ok (some isr) → isr.name = "Unknown" →
      project_raster_in_place renv path sr = (path, nilTrace)) ∧
    (∀ renv path sr isr, renv.describe = Except.ok (some isr) → sr_equal isr sr = true →
      project_raster_in_place renv path sr = (path, nilTrace)) ∧
    (∀ a b, sr_equal a b = true ↔
      ((a.factoryCode ≠ 0 ∧ b.factoryCode ≠ 0 ∧ a.factoryCode = b.factoryCode) ∨
       (¬(a.factoryCode ≠ 0 ∧ b.factoryCode ≠ 0) ∧ a.name = b.name))) := by
  refine ⟨fun renv path sr hd => ?_, fun renv path sr isr hd hn => ?_,
    fun renv path sr isr hd he => ?_, fun a b => ?_⟩
  · simp [project_raster_in_place, hd]
  · simp [project_raster_in_place, hd, hn]
  · simp only [project_raster_in_place, hd]
    split <;> simp [he]
  · simp only [sr_equal]
    split
    · rename_i h
      simp only [Bool.and_eq_true, bne_iff_ne, ne_eq] at h
      constructor
      · intro hc
        exact Or.inl ⟨h.1, h.2, by simpa using hc⟩
      · rintro (⟨_, _, hc⟩ | ⟨hn, _⟩)
        · simpa using hc
        · exact absurd ⟨h.1, h.2⟩ hn
    · rename_i h
      simp only [Bool.and_eq_true, bne_iff_ne, ne_eq] at h
      constructor
      · intro hn
        exact Or.inr ⟨h, by simpa using hn⟩
      · rintro (⟨h1, h2, _⟩ | ⟨_, hn⟩)
        · exact absurd ⟨h1, h2⟩ h
        · simpa using hn

/-- C5 witness: the three no-op hypotheses discharged on concrete inputs. -/
theorem claim_C5_witness :
    project_raster_in_place recNoop "out/a.tif" srWGS = ("out/a.tif", nilTrace) ∧
    project_raster_in_place renvUnknown "out/a.tif" srWGS = ("out/a.tif", nilTrace) ∧
    project_raster_in_place renvSame "out/a.tif" srWGS = ("out/a.tif", nilTrace) :=
  ⟨claim_C5_reconciliation_noop.1 recNoop "out/a.tif" srWGS rfl,
   claim_C5_reconciliation_noop.2.1 renvUnknown "out/a.tif" srWGS ⟨0, "Unknown"⟩ rfl rfl,
   claim_C5_reconciliation_noop.2.2.1 renvSame "out/a.tif" srWGS srWGS rfl (by decide)⟩

/-- C3 counterexample: with the Delete of the original failing and os.replace
succeeding, the temporary file is installed over the still-present original
(`replaced` true while `deletedOrig` false) and no rename-aside occurs — the
claimed rename-aside-and-delete fallback does not exist in the code. -/
theorem claim_C3_counterexample :
    (project_raster_in_place renvC3 "out/a.tif" srWGS).2.replaced = true ∧
    (project_raster_in_place renvC3 "out/a.tif" srWGS).2.deletedOrig = false ∧
    (project_raster_in_place renvC3 "out/a.tif" srWGS).2.renamedAside = false := by
  decide

/-- C3 amended: after the temporary file is produced, the original is deleted
with a deletion failure silently ignored (no rename-aside exists); the
temporary file is then installed at the original path by os.replace, which
overwrites a still-present original; only if the replace itself fails is a
warning logged, the temporary file left uninstalled, and the original retained
as the final artifact. -/
theorem claim_C3_replace_fallback (renv : RecEnv) (path : String) (sr isr : SRef)
    (hd : renv.describe = Except.ok (some isr)) (hn : ¬isr.name = "Unknown")
    (he : sr_equal isr sr = false) (hp : renv.projectFails = false) :
    (project_raster_in_place renv path sr).1 = path ∧
    (project_raster_in_place renv path sr).2.projected =
      some (tmpPath path renv.uuidHex) ∧
    (project_raster_in_place renv path sr).2.renamedAside = false ∧
    (project_raster_in_place renv path sr).2.deletedOrig = !renv.deleteFails ∧
    (renv.replaceFails = false → (project_raster_in_place renv path sr).2.replaced = true) ∧
    (renv.replaceFails = true →
      (project_raster_in_place renv path sr).2.replaced = false ∧
      (project_raster_in_place renv path sr).2.warnKept = true) := by
  simp only [project_raster_in_place, hd, if_neg hn, he, Bool.false_eq_true, if_false, hp]
  cases hr : renv.replaceFails <;> simp [hr]

/-- C3 witness: the amended behavior at a concrete failing-delete input. -/
theorem claim_C3_witness :
    (project_raster_in_place renvC3 "out/b.tif" srWGS).1 = "out/b.tif" ∧
    (project_raster_in_place renvC3 "out/b.tif" srWGS).2.projected =
      some (tmpPath "out/b.tif" renvC3.uuidHex) := by
  have h := claim_C3_replace_fallback renvC3 "out/b.tif" srWGS srUTM rfl
    (by decide) (by decide) rfl
  exact ⟨h.1, h.2.1⟩

/-- C1: skip-and-continue — over a validated range 1..5 where only page 3's
export raises, the run is not fatal, the converter is invoked on every page,
raster artifacts are produced and registered for pages 1, 2, 4 and 5 at their
resolved paths, the ledger holds exactly one FailureRecord — page 3 with
source path, resolved output path and error text — and a failure report is
emitted; the loop never stops on a page-level conversion failure. -/
theorem claim_C1_skip_and_continue (env : ExecEnv) (e : String)
    (h1 : env.pdfOpenFails = false) (hs : env.startVal = 1) (he : env.endVal = 5)
    (hpc : (5 : Int) ≤ env.pageCount)
    (hc : ∀ p, env.convert p = if p = 3 then some e else none)
    (hm : env.mapPresent = true) (ht : env.tableWriteFails = false) :
    (execute env).fatalError = none ∧
    (execute env).convertCalls = [1, 2, 3, 4, 5] ∧
    (execute env).artifacts = [pathOf env 1, pathOf env 2, pathOf env 4, pathOf env 5] ∧
    (execute env).registered = [pathOf env 1, pathOf env 2, pathOf env 4, pathOf env 5] ∧
    (execute env).failures = [⟨env.input_pdf_path, 3, pathOf env 3, e⟩] ∧
    (execute env).reportTable =
      some ("PDF2TIFF_Failures_" ++ sanitize_for_fs env.project_id) ∧
    (execute env).summarySkipped = true := by
  have h2 : ¬(env.startVal < 1 ∨ env.endVal > env.pageCount) := by
    rw [hs, he]; omega
  have hpages : pagesOf env = [1, 2, 3, 4, 5] := by
    simp only [pagesOf, intRange, hs, he]
    decide
  have hfil : List.filter (fun p => (env.convert p).isNone) [1, 2, 3, 4, 5] = [1, 2, 4, 5] := by
    simp [hc]
  have hfm : List.filterMap (failOf env) [1, 2, 3, 4, 5] =
      [⟨env.input_pdf_path, 3, pathOf env 3, e⟩] := by
    simp [failOf, hc]
  rw [execute_ok_eq env h1 h2]
  simp [hpages, hfil, hfm, hm, ht]

/-- C1 witness: the scenario at a fully concrete environment. -/
theorem claim_C1_witness :
    (execute envC1).fatalError = none ∧
    (execute envC1).convertCalls = [1, 2, 3, 4, 5] ∧
    (execute envC1).artifacts =
      [pathOf envC1 1, pathOf envC1 2, pathOf envC1 4, pathOf envC1 5] ∧
    (execute envC1).registered =
      [pathOf envC1 1, pathOf envC1 2, pathOf envC1 4, pathOf envC1 5] ∧
    (execute envC1).failures =
      [⟨envC1.input_pdf_path, 3, pathOf envC1 3, "ERROR 000725: export failed"⟩] ∧
    (execute envC1).reportTable =
      some ("PDF2TIFF_Failures_" ++ sanitize_for_fs envC1.project_id) ∧
    (execute envC1).summarySkipped = true :=
  claim_C1_skip_and_continue envC1 "ERROR 000725: export failed" rfl rfl rfl
    (by decide) (fun p => rfl) rfl rfl

/-- C2 counterexample: the requested range 3..2 on a five-page document has
start > end, which the claim says must fail with a fatal RangeError, yet the
run is not fatal — the source checks only start < 1 and end > pageCount. -/
theorem claim_C2_counterexample :
    (execute envC2).fatalError = none ∧ envC2.startVal = 3 ∧ envC2.endVal = 2 ∧
      envC2.pageCount = 5 := by
  exact ⟨rfl, rfl, rfl, rfl⟩

/-- C2 amended: the pre-loop validation fails fatally exactly when start < 1
or end > pageCount; a request with start > end inside bounds is accepted (the
loop then simply runs zero iterations). -/
theorem claim_C2_range_validation (env : ExecEnv) (h1 : env.pdfOpenFails = false) :
    (execute env).fatalError.isSome ↔
      (env.startVal < 1 ∨ env.endVal > env.pageCount) := by
  by_cases h2 : env.startVal < 1 ∨ env.endVal > env.pageCount
  · simp only [execute, h1, Bool.false_eq_true, if_false, if_pos h2]
    simpa using h2
  · rw [execute_ok_eq env h1 h2]
    simpa using h2

/-- C2 witness: validation hypotheses discharged at a start-below-1 input. -/
theorem claim_C2_witness : (execute envC2w).fatalError.isSome :=
  (claim_C2_range_validation envC2w rfl).mpr (Or.inl (by decide))

/-- C4: reconciliation never escalates — project_raster_in_place returns the
original path on every oracle outcome; a reprojection or swap failure only
sets the warning and keeps the original uninstalled; the run's ledger consists
exactly of the converter failures, so a reconciliation failure never adds a
FailureRecord; and every page whose export succeeded is still handed to
registration, whatever its reconciliation oracle did. -/
theorem claim_C4_reconciliation_never_escalates (env : ExecEnv)
    (h1 : env.pdfOpenFails = false)
    (h2 : ¬(env.startVal < 1 ∨ env.endVal > env.pageCount)) :
    (∀ renv p sr, (project_raster_in_place renv p sr).1 = p) ∧
    (∀ renv p sr isr, renv.describe = Except.ok (some isr) → ¬isr.name = "Unknown" →
      sr_equal isr sr = false → (renv.projectFails = true ∨ renv.replaceFails = true) →
      (project_raster_in_place renv p sr).2.warnKept = true ∧
      (project_raster_in_place renv p sr).2.replaced = false) ∧
    (execute env).failures = (pagesOf env).filterMap (failOf env) ∧
    (execute env).registered =
      (if env.mapPresent then
        ((pagesOf env).filter (fun p => (env.convert p).isNone)).map (pathOf env)
      else []) := by
  refine ⟨prp_fst, fun renv p sr isr hd hn he hor => ?_, ?_, ?_⟩
  · simp only [project_raster_in_place, hd, if_neg hn, he, Bool.false_eq_true, if_false]
    cases hp : renv.projectFails <;> cases hr : renv.replaceFails <;>
      simp [hp, hr] at hor ⊢
  · rw [execute_ok_eq env h1 h2]
  · rw [execute_ok_eq env h1 h2]

/-- C4 witness: the guarantees at a run whose every reconciliation fails. -/
theorem claim_C4_witness :
    (execute envC4).failures = (pagesOf envC4).filterMap (failOf envC4) ∧
    (project_raster_in_place renvProjFail "out/w.tif" srWGS).1 = "out/w.tif" ∧
    (project_raster_in_place renvProjFail "out/w.tif" srWGS).2.warnKept = true := by
  have h := claim_C4_reconciliation_never_escalates envC4 rfl (by decide)
  exact ⟨h.2.2.1, h.1 renvProjFail "out/w.tif" srWGS,
    (h.2.1 renvProjFail "out/w.tif" srWGS srUTM rfl (by decide) (by decide)
      (Or.inl rfl)).1⟩

/-- C8 counterexample: the interval 2..1 is invalid (start > end), yet the run
does not abort fatally — it completes and even prints the no-pages-skipped
summary, so not every invalid interval triggers the fatal RangeError path. -/
theorem claim_C8_counterexample :
    envC8.startVal > envC8.endVal ∧ (execute envC8).fatalError = none ∧
      (execute envC8).summaryNoSkip = true := by
  exact ⟨by decide, rfl, rfl⟩

/-- C8 amended: for the intervals the source does treat as invalid — start < 1
or end > pageCount — the run aborts fatally before any conversion: no page is
attempted, no artifact produced or registered, no stale file cleared, the
ledger stays empty and no report is written (only the output-directory
creation precedes the check). -/
theorem claim_C8_range_error_atomicity (env : ExecEnv)
    (h1 : env.pdfOpenFails = false)
    (h2 : env.startVal < 1 ∨ env.endVal > env.pageCount) :
    (execute env).fatalError.isSome ∧ (execute env).convertCalls = [] ∧
    (execute env).preDeleted = [] ∧ (execute env).artifacts = [] ∧
    (execute env).failures = [] ∧ (execute env).registered = [] ∧
    (execute env).reportTable = none := by
  simp [execute, h1, h2]

/-- C8 witness: the abort at an end-beyond-pageCount input. -/
theorem claim_C8_witness :
    (execute envC8w).fatalError.isSome ∧ (execute envC8w).convertCalls = [] := by
  have h := claim_C8_range_error_atomicity envC8w rfl (Or.inr (by decide))
  exact ⟨h.1, h.2.1⟩

/-- C9 counterexample: the sanitization collapses only reserved filename
characters and whitespace, not every non-alphanumeric run — on "a--b" the code
keeps the hyphens while the claimed rule would collapse them to a single
separator. -/
theorem claim_C9_counterexample :
    sanitize_for_fs "a--b" = "a--b" ∧ sanitizeSpec "a--b" = "a_b" ∧
      sanitize_for_fs "a--b" ≠ sanitizeSpec "a--b" := by
  decide

/-- C9 amended: when the ledger is non-empty and the table write succeeds, the
report table name is PDF2TIFF_Failures_ followed by the projectId sanitized by
collapsing every run of reserved filename characters or whitespace to a single
underscore and truncating to 120 characters, and a pre-existing table of that
name is overwritten; the sanitized part is bounded, free of the collapsed
class, and collapses runs as in the cited instance. -/
theorem claim_C9_failure_table_naming (env : ExecEnv)
    (h1 : env.pdfOpenFails = false)
    (h2 : ¬(env.startVal < 1 ∨ env.endVal > env.pageCount))
    (hf : ((pagesOf env).filterMap (failOf env)).isEmpty = false)
    (ht : env.tableWriteFails = false) :
    (execute env).reportTable =
      some ("PDF2TIFF_Failures_" ++ sanitize_for_fs env.project_id) ∧
    (execute env).reportOverwrote = env.tableExists ∧
    (∀ s, (sanitize_for_fs s).length ≤ 120) ∧
    (∀ s c, c ∈ (sanitize_for_fs s).data → sanChar c = false) ∧
    sanitize_for_fs "a  b<<c" = "a_b_c" := by
  refine ⟨?_, ?_, fun s => ?_, fun s c hmem => ?_, by decide⟩
  · rw [execute_ok_eq env h1 h2]
    simp [hf, ht]
  · rw [execute_ok_eq env h1 h2]
    simp [hf, ht]
  · have h : (sanitize_for_fs s).length =
        ((collapseAux sanChar false (pyStrip s.data)).take 120).length := rfl
    rw [h, List.length_take]
    exact min_le_left _ _
  · exact collapseAux_classFree sanChar (by decide) false _ c
      (List.take_subset _ _ hmem)

/-- C9 witness: the table naming at a run with failures, a sanitizable
project id and a pre-existing table. -/
theorem claim_C9_witness :
    (execute envC9).reportTable =
      some ("PDF2TIFF_Failures_" ++ sanitize_for_fs envC9.project_id) ∧
    (execute envC9).reportOverwrote = envC9.tableExists := by
  have h := claim_C9_failure_table_naming envC9 rfl (by decide) (by decide) rfl
  exact ⟨h.1, h.2.1⟩

/-- C10: an in-bounds request with start > end is not rejected — the run is
not fatal, the loop runs zero iterations so the converter is never invoked, no
artifact is produced or registered, the ledger stays empty, no report is
written, and the run ends with the no-pages-skipped summary. -/
theorem claim_C10_inverted_range_empty_loop (env : ExecEnv)
    (h1 : env.pdfOpenFails = false)
    (hs1 : 1 ≤ env.startVal) (hs2 : env.startVal ≤ env.pageCount)
    (he1 : 1 ≤ env.endVal) (he2 : env.endVal ≤ env.pageCount)
    (hlt : env.endVal < env.startVal) :
    (execute env).fatalError = none ∧ (execute env).convertCalls = [] ∧
    (execute env).artifacts = [] ∧ (execute env).failures = [] ∧
    (execute env).registered = [] ∧ (execute env).reportTable = none ∧
    (execute env).summaryNoSkip = true := by
  have h2 : ¬(env.startVal < 1 ∨ env.endVal > env.pageCount) := by omega
  have hp : pagesOf env = [] := intRange_of_lt env.startVal env.endVal hlt
  rw [execute_ok_eq env h1 h2]
  simp [hp]

/-- C10 witness: the empty loop at the concrete request 4..2 of five pages. -/
theorem claim_C10_witness :
    (execute envC10).fatalError = none ∧ (execute envC10).convertCalls = [] ∧
      (execute envC10).summaryNoSkip = true := by
  have h := claim_C10_inverted_range_empty_loop envC10 rfl (by decide) (by decide)
    (by decide) (by decide) (by decide)
  exact ⟨h.1, h.2.1, h.2.2.2.2.2.2⟩

end PDF2TIFF
